import Mathlib

/-!
Verification of the survey submission and coupon issuance core.

Shallow embedding of the logic in `src/lib/coupon.ts`,
`src/server/routers/survey.ts`, `src/lib/models/SurveyResponse.ts` and
`src/types/survey.ts`, together with proofs of the behavioural claims
about it.

Modelling conventions:
* JS numbers that hold calendar components and timestamps are `Nat`.
* `Math.floor(Math.random() * CHARSET.length)` produces an index below
  `CHARSET.length`; the random source is modelled as the list of indices
  it produced, one per loop iteration of `generateRandomString`.
* The MongoDB collection is a `List SurveyRecord` in insertion order.
  `findOne` returns the first match; `save` fails with a duplicate-key
  error exactly when one of the two unique indexes (`lineUserId`,
  `couponCode`) is violated.  Storage is assumed reachable, and inputs
  have passed the zod schema, so the only `save` failure modelled is the
  duplicate-key one (the source inspects `error.message` for the Mongo
  text "duplicate key").
* `submit` interleaves with concurrent submissions only between its
  initial `findOne` and the `save`; it therefore takes the collection
  state at read time and at insert time separately.  A sequential call
  is the special case where the two states coincide.
-/

/-! Coupon codes (`src/lib/coupon.ts`). -/

/-- Character set for coupon code generation: uppercase letters and
numbers, excluding the similar-looking `0, O, 1, I, L`. -/
def CHARSET : String := "ABCDEFGHJKMNPQRSTUVWXYZ23456789"

/-- The loop of `generateRandomString(length)`: each iteration draws
`Math.floor(Math.random() * CHARSET.length)` and appends the character of
`CHARSET` at that index.  The draws are the `idxs` argument (so the JS
`length` parameter is `idxs.length`); an out-of-range draw, which the JS
`Math.floor` bound rules out, falls back to an arbitrary character. -/
def generateRandomString (idxs : List Nat) : String :=
  String.mk (idxs.map (fun i => CHARSET.data.getD i ' '))

/-- A calendar date exactly as the JS `Date` accessors used by
`generateCouponCode` expose it: `getFullYear()`, `getMonth()` (0-based
month) and `getDate()` (1-based day of month). -/
structure JsDate where
  fullYear : Nat
  month : Nat
  date : Nat
deriving DecidableEq

/-- JS `String.prototype.padStart(2, '0')`. -/
def padStart2 (s : String) : String :=
  if s.length < 2 then String.mk (List.replicate (2 - s.length) '0') ++ s else s

/-- JS `String.prototype.slice(-2)`: the last two characters (the whole
string if it is shorter). -/
def sliceLast2 (s : String) : String :=
  s.drop (s.length - 2)

/-- The generator `generateCouponCode()`: `YYMMDD` + 6 random characters.  The `year`,
`month` and `day` locals mirror `getFullYear().toString().slice(-2)`,
`(getMonth() + 1).toString().padStart(2, '0')` and
`getDate().toString().padStart(2, '0')`. -/
def generateCouponCode (now : JsDate) (draws : List Nat) : String :=
  let year := sliceLast2 (Nat.repr now.fullYear)
  let month := padStart2 (Nat.repr (now.month + 1))
  let day := padStart2 (Nat.repr now.date)
  (year ++ month ++ day) ++ generateRandomString draws

/-- The test `/^\d{6}$/.test(s)`: the whole string is six digits. -/
def sixDigits (s : String) : Bool :=
  s.length == 6 && s.data.all Char.isDigit

/-- The test `/^[A-Z0-9]{6}$/.test(s)`: the whole string is six
characters, each an uppercase ASCII letter or a digit. -/
def sixUpperAlnum (s : String) : Bool :=
  s.length == 6 && s.data.all (fun c => ('A' ≤ c && c ≤ 'Z') || ('0' ≤ c && c ≤ '9'))

/-- The validator `isValidCouponCode(code)` with its three early returns: exactly 12
characters, first six digits (`code.slice(0, 6)`), last six uppercase
alphanumerics (`code.slice(6)`). -/
def isValidCouponCode (code : String) : Bool :=
  if code.length != 12 then false
  else if !sixDigits (code.take 6) then false
  else if !sixUpperAlnum (code.drop 6) then false
  else true

/-- Specification-side helper: the canonical two-digit decimal rendering
of `m < 100`, used to state what "calendar date in YYMMDD form" means. -/
def twoDigitStr (m : Nat) : String :=
  if m < 10 then "0" ++ Nat.repr m else Nat.repr m

/-! Survey data model (`src/types/survey.ts`, `src/lib/models/SurveyResponse.ts`). -/

/-- Age range options for Step 1. -/
def AGE_RANGES : List String := ["18-24", "25-34", "35-44", "45-54", "55-64", "65+"]

/-- Gender options for Step 2. -/
def GENDERS : List String := ["male", "female"]

/-- Channel options for Step 3 (multi-select). -/
def CHANNELS : List String :=
  ["facebook", "instagram", "tiktok", "ecommerce", "retail", "medical", "other"]

/-- Price range options for Step 4. -/
def PRICE_RANGES : List String := ["lte500", "500-1500", "1500-2500", "gte2500"]

/-- The payload of `surveySubmitSchema`: `lineUserId` plus the answers. -/
structure SurveySubmitInput where
  lineUserId : String
  ageRange : String
  gender : String
  channels : List String
  channelOtherText : Option String
  priceRange : String
  currentBrand : String
deriving DecidableEq

/-- The zod schema `surveySubmitSchema`: `lineUserId` non-empty, answers
within their enumerations, `channels` non-empty, text fields bounded. -/
def validSurveySubmitInput (i : SurveySubmitInput) : Bool :=
  (1 ≤ i.lineUserId.length) &&
  AGE_RANGES.contains i.ageRange &&
  GENDERS.contains i.gender &&
  (1 ≤ i.channels.length) && i.channels.all (fun c => CHANNELS.contains c) &&
  (match i.channelOtherText with
   | none => true
   | some t => t.length ≤ 200) &&
  PRICE_RANGES.contains i.priceRange &&
  (1 ≤ i.currentBrand.length) && (i.currentBrand.length ≤ 200)

/-- One document of the `survey_responses` collection
(`surveyResponseSchema`).  `couponSentAt` is nullable and defaults to
null; timestamps are `Nat`. -/
structure SurveyRecord where
  lineUserId : String
  ageRange : String
  gender : String
  channels : List String
  channelOtherText : Option String
  priceRange : String
  currentBrand : String
  couponCode : String
  couponSentAt : Option Nat
  submittedAt : Nat
deriving DecidableEq

/-- The query `SurveyResponse.findOne({ lineUserId })`: first stored document with
the given identity. -/
def findOne (db : List SurveyRecord) (lineUserId : String) : Option SurveyRecord :=
  db.find? (fun r => r.lineUserId == lineUserId)

/-- The document `r` violates one of the two unique indexes of
`surveyResponseSchema` (on `lineUserId` and on `couponCode`) against the
current collection: `save` then rejects with a Mongo duplicate-key
error. -/
def hasDuplicateKey (db : List SurveyRecord) (r : SurveyRecord) : Bool :=
  db.any (fun e => e.lineUserId == r.lineUserId || e.couponCode == r.couponCode)

/-- JS `channelOtherText || null`: undefined, null and the empty string
(all falsy) are stored as null. -/
def orNull (s : Option String) : Option String :=
  match s with
  | some t => if t = "" then none else some t
  | none => none

/-- The document built by `new SurveyResponse({...})` in `submit`:
the answers, the freshly generated coupon code, `submittedAt: new
Date()`; `couponSentAt` takes its schema default null. -/
def newRecord (input : SurveySubmitInput) (couponCode : String) (now : Nat) : SurveyRecord :=
  { lineUserId := input.lineUserId
    ageRange := input.ageRange
    gender := input.gender
    channels := input.channels
    channelOtherText := orNull input.channelOtherText
    priceRange := input.priceRange
    currentBrand := input.currentBrand
    couponCode := couponCode
    couponSentAt := none
    submittedAt := now }

/-- The shape `SurveySubmitResponse` from `src/types/survey.ts`. -/
structure SurveySubmitResponse where
  success : Bool
  couponCode : String
deriving DecidableEq

/-- The shape `SurveyStatusResponse` from `src/types/survey.ts`
(`couponCode` is optional). -/
structure SurveyStatusResponse where
  alreadySubmitted : Bool
  couponCode : Option String
deriving DecidableEq

/-- The error thrown by `submit` when the save fails irrecoverably. -/
inductive TRPCErrorCode where
  | INTERNAL_SERVER_ERROR
deriving DecidableEq

/-- What a terminating `submit` call left behind: the collection, the
response returned to the caller, and how many times `sendCouponToUser`
was invoked (instrumentation for the no-second-notification claims). -/
structure SubmitOutcome where
  db : List SurveyRecord
  response : SurveySubmitResponse
  lineSendAttempts : Nat
deriving DecidableEq

/-- The `submit` mutation of `surveyRouter`.

* `dbAtRead` / `dbAtInsert`: collection state seen by the initial
  `findOne` and by `save` (equal for a sequential call; concurrent
  submissions may have inserted between the two).
* `freshCoupon`: the value `generateCouponCode()` returned.
* `lineOk`: whether the `sendCouponToUser` / `couponSentAt` update pair
  inside the inner try completed without throwing.
* `now` / `sentAt`: the two `new Date()` timestamps.

Paths, mirroring the source: existing record found → return its coupon;
otherwise build the document and save.  A duplicate-key rejection is
caught, the identity is re-read, a found record answers the caller and
anything else becomes `INTERNAL_SERVER_ERROR`.  A successful save
attempts the LINE push once; its failure is swallowed and only skips the
`couponSentAt` update, which rewrites (by `_id`) exactly the document
just saved. -/
def submit (dbAtRead dbAtInsert : List SurveyRecord) (input : SurveySubmitInput)
    (freshCoupon : String) (lineOk : Bool) (now sentAt : Nat) :
    Except TRPCErrorCode SubmitOutcome :=
  match findOne dbAtRead input.lineUserId with
  | some existingResponse =>
      .ok ⟨dbAtInsert, ⟨true, existingResponse.couponCode⟩, 0⟩
  | none =>
      let surveyResponse := newRecord input freshCoupon now
      if hasDuplicateKey dbAtInsert surveyResponse then
        match findOne dbAtInsert input.lineUserId with
        | some existing => .ok ⟨dbAtInsert, ⟨true, existing.couponCode⟩, 0⟩
        | none => .error .INTERNAL_SERVER_ERROR
      else
        if lineOk then
          .ok ⟨dbAtInsert ++ [{ surveyResponse with couponSentAt := some sentAt }],
           ⟨true, freshCoupon⟩, 1⟩
        else
          .ok ⟨dbAtInsert ++ [surveyResponse], ⟨true, freshCoupon⟩, 1⟩

/-- The `getStatus` query of `surveyRouter`: a single `findOne`, no
write whatsoever (read-only by construction: the collection is consumed
as a value and no collection is returned). -/
def getStatus (db : List SurveyRecord) (lineUserId : String) : SurveyStatusResponse :=
  match findOne db lineUserId with
  | some existingResponse => ⟨true, some existingResponse.couponCode⟩
  | none => ⟨false, none⟩

/-- The storage invariant maintained by the unique index: identities are
pairwise distinct across the collection. -/
def uidsNodup (db : List SurveyRecord) : Prop :=
  (db.map (fun r => r.lineUserId)).Nodup

/-! Decimal-rendering lemmas for `Nat.repr`, the Lean counterpart of the
JS `Number.prototype.toString` that the coupon generator applies to the
date components: its digits, its length, and its last two characters. -/

theorem digitChar_isDigit (m : Nat) (h : m < 10) : (Nat.digitChar m).isDigit = true := by
  interval_cases m <;> decide

theorem toDigitsCore_append (f : Nat) :
    ∀ (n : Nat) (ds : List Char), n < f →
      Nat.toDigitsCore 10 f n ds = Nat.toDigitsCore 10 f n [] ++ ds := by
  induction f with
  | zero => intro n ds h; omega
  | succ f ih =>
    intro n ds _
    simp only [Nat.toDigitsCore]
    by_cases h10 : n / 10 = 0
    · simp [h10]
    · have hn : n / 10 < n := Nat.div_lt_self (by omega) (by omega)
      simp only [h10, if_false]
      rw [ih (n / 10) _ (by omega), ih (n / 10) [(n % 10).digitChar] (by omega)]
      simp

theorem toDigitsCore_fuel (n : Nat) : ∀ f g, n < f → n < g →
    Nat.toDigitsCore 10 f n [] = Nat.toDigitsCore 10 g n [] := by
  induction n using Nat.strong_induction_on with
  | _ n ih =>
    intro f g hf hg
    cases f with
    | zero => omega
    | succ f =>
      cases g with
      | zero => omega
      | succ g =>
        simp only [Nat.toDigitsCore]
        by_cases h10 : n / 10 = 0
        · simp [h10]
        · have hn : n / 10 < n := Nat.div_lt_self (by omega) (by omega)
          simp only [h10, if_false]
          rw [toDigitsCore_append f _ _ (by omega), toDigitsCore_append g _ _ (by omega),
            ih (n / 10) hn f g (by omega) (by omega)]

theorem repr_lt_ten (n : Nat) (h : n < 10) : Nat.repr n = String.mk [Nat.digitChar n] := by
  interval_cases n <;> rfl

theorem repr_append_digit (n : Nat) (h : 10 ≤ n) :
    Nat.repr n = Nat.repr (n / 10) ++ Nat.repr (n % 10) := by
  have h10 : n / 10 ≠ 0 := by omega
  have e1 : Nat.repr n = (Nat.toDigitsCore 10 (n + 1) n []).asString := rfl
  have e2 : Nat.toDigitsCore 10 (n + 1) n [] =
      Nat.toDigitsCore 10 n (n / 10) [(n % 10).digitChar] := by
    simp only [Nat.toDigitsCore]
    simp [h10]
  have e3 : Nat.toDigitsCore 10 n (n / 10) [(n % 10).digitChar] =
      Nat.toDigitsCore 10 (n / 10 + 1) (n / 10) [] ++ [(n % 10).digitChar] := by
    have hn : n / 10 < n := Nat.div_lt_self (by omega) (by omega)
    rw [toDigitsCore_append n _ _ (by omega),
      toDigitsCore_fuel (n / 10) n (n / 10 + 1) (by omega) (by omega)]
  rw [repr_lt_ten (n % 10) (by omega), e1, e2, e3]
  rfl

theorem toDigitsCore_isDigit (f : Nat) :
    ∀ (n : Nat) (ds : List Char), (∀ c ∈ ds, c.isDigit = true) →
      ∀ c ∈ Nat.toDigitsCore 10 f n ds, c.isDigit = true := by
  induction f with
  | zero =>
    intro n ds h c hc
    simp only [Nat.toDigitsCore] at hc
    exact h c hc
  | succ f ih =>
    intro n ds h c hc
    have hcons : ∀ c ∈ (n % 10).digitChar :: ds, c.isDigit = true := by
      intro c hc'
      rcases List.mem_cons.mp hc' with rfl | hm
      · exact digitChar_isDigit _ (by omega)
      · exact h c hm
    simp only [Nat.toDigitsCore] at hc
    by_cases h10 : n / 10 = 0
    · simp only [h10, if_true, reduceIte] at hc
      exact hcons c hc
    · simp only [h10, if_false] at hc
      exact ih (n / 10) _ hcons c hc

theorem repr_isDigit (n : Nat) : ∀ c ∈ (Nat.repr n).data, c.isDigit = true := by
  have hdata : (Nat.repr n).data = Nat.toDigitsCore 10 (n + 1) n [] := rfl
  rw [hdata]
  exact toDigitsCore_isDigit (n + 1) n [] (by intro c hc; cases hc)

theorem repr_length_lt_ten (n : Nat) (h : n < 10) : (Nat.repr n).length = 1 := by
  rw [repr_lt_ten n h]; rfl

theorem repr_length_two (n : Nat) (h1 : 10 ≤ n) (h2 : n < 100) : (Nat.repr n).length = 2 := by
  rw [repr_append_digit n h1, String.length_append,
    repr_length_lt_ten (n / 10) (by omega), repr_length_lt_ten (n % 10) (by omega)]

theorem twoDigitStr_length (m : Nat) (h : m < 100) : (twoDigitStr m).length = 2 := by
  unfold twoDigitStr
  by_cases h10 : m < 10
  · simp only [h10, if_true, reduceIte, String.length_append, repr_length_lt_ten m h10]
    rfl
  · simp only [h10, if_false, reduceIte]
    exact repr_length_two m (by omega) h

theorem twoDigitStr_isDigit (m : Nat) : ∀ c ∈ (twoDigitStr m).data, c.isDigit = true := by
  unfold twoDigitStr
  by_cases h10 : m < 10 <;> simp only [h10, if_true, if_false, reduceIte] <;> intro c hc
  · rw [String.data_append] at hc
    rcases List.mem_append.mp hc with h0 | hr
    · have e0 : "0".data = ['0'] := rfl
      rw [e0] at h0
      rw [List.mem_singleton.mp h0]
      decide
    · exact repr_isDigit m c hr
  · exact repr_isDigit m c hc

theorem sliceLast2_repr (n : Nat) (h : 10 ≤ n) :
    sliceLast2 (Nat.repr n) = twoDigitStr (n % 100) := by
  by_cases h100 : n < 100
  · have hmod : n % 100 = n := Nat.mod_eq_of_lt h100
    unfold sliceLast2
    rw [repr_length_two n h h100, hmod]
    simp only [Nat.sub_self, twoDigitStr]
    have hn10 : ¬ n < 10 := by omega
    simp only [hn10, if_false, reduceIte]
    apply String.ext
    simp [String.data_drop]
  · have hA : Nat.repr n = Nat.repr (n / 10) ++ Nat.repr (n % 10) :=
      repr_append_digit n (by omega)
    have hB : Nat.repr (n / 10) = Nat.repr (n / 10 / 10) ++ Nat.repr (n / 10 % 10) :=
      repr_append_digit (n / 10) (by omega)
    have hndiv : (n % 100) / 10 = n / 10 % 10 := by omega
    have hnmod : (n % 100) % 10 = n % 10 := by omega
    unfold sliceLast2
    apply String.ext
    rw [String.data_drop, hA, hB]
    have hlen : (Nat.repr (n / 10 / 10) ++ Nat.repr (n / 10 % 10) ++ Nat.repr (n % 10)).length =
        (Nat.repr (n / 10 / 10)).data.length + 2 := by
      simp only [String.length_append]
      rw [repr_length_lt_ten (n / 10 % 10) (by omega), repr_length_lt_ten (n % 10) (by omega)]
      rfl
    rw [hlen]
    simp only [Nat.add_sub_cancel, String.data_append, List.append_assoc]
    rw [List.drop_left]
    unfold twoDigitStr
    by_cases hsm : n % 100 < 10
    · have hz : n / 10 % 10 = 0 := by omega
      have hc : n % 10 = n % 100 := by omega
      rw [hz, hc, repr_lt_ten 0 (by omega)]
      simp [String.data_append]
      simp [hsm]
      rfl
    · simp only [hsm, if_false, reduceIte]
      rw [repr_append_digit (n % 100) (by omega), hndiv, hnmod]
      simp [String.data_append]

theorem padStart2_twoDigit (m : Nat) (h : m < 100) :
    padStart2 (Nat.repr m) = twoDigitStr m := by
  unfold padStart2 twoDigitStr
  by_cases h10 : m < 10
  · rw [repr_length_lt_ten m h10]
    simp only [h10, if_true, reduceIte, Nat.one_lt_two, if_pos (by omega : (1:Nat) < 2)]
    rfl
  · rw [repr_length_two m (by omega) h]
    simp only [h10, if_false, reduceIte]
    rfl

theorem generateRandomString_length (idxs : List Nat) :
    (generateRandomString idxs).length = idxs.length := by
  simp only [generateRandomString, String.length, List.length_map]

theorem generateRandomString_mem (idxs : List Nat) (h : ∀ i ∈ idxs, i < CHARSET.length) :
    ∀ c ∈ (generateRandomString idxs).data, c ∈ CHARSET.data := by
  intro c hc
  simp only [generateRandomString] at hc
  rcases List.mem_map.mp hc with ⟨i, hi, rfl⟩
  rw [List.getD_eq_getElem CHARSET.data ' ' (h i hi)]
  exact List.getElem_mem _

theorem couponCode_decomp (d : JsDate) (draws : List Nat) (hy : 10 ≤ d.fullYear)
    (hm : d.month + 1 ≤ 12) (hd : d.date ≤ 31) :
    generateCouponCode d draws =
      (twoDigitStr (d.fullYear % 100) ++ twoDigitStr (d.month + 1) ++ twoDigitStr d.date) ++
        generateRandomString draws := by
  simp only [generateCouponCode]
  rw [sliceLast2_repr d.fullYear hy, padStart2_twoDigit (d.month + 1) (by omega),
    padStart2_twoDigit d.date (by omega)]

theorem ymd_length (d : JsDate) (hm : d.month + 1 ≤ 12)
    (hd : d.date ≤ 31) :
    (twoDigitStr (d.fullYear % 100) ++ twoDigitStr (d.month + 1) ++ twoDigitStr d.date).length
      = 6 := by
  simp only [String.length_append]
  rw [twoDigitStr_length _ (Nat.mod_lt _ (by omega)), twoDigitStr_length _ (by omega),
    twoDigitStr_length _ (by omega)]

theorem charset_upperAlnum :
    ∀ c ∈ CHARSET.data, (('A' ≤ c && c ≤ 'Z') || ('0' ≤ c && c ≤ '9')) = true := by
  decide

theorem isValidCouponCode_iff (code : String) :
    isValidCouponCode code = true ↔
      code.length = 12 ∧ sixDigits (code.take 6) = true ∧
        sixUpperAlnum (code.drop 6) = true := by
  unfold isValidCouponCode
  by_cases h1 : code.length = 12 <;>
    by_cases h2 : sixDigits (code.take 6) = true <;>
    by_cases h3 : sixUpperAlnum (code.drop 6) = true <;>
    simp [h1, h2, h3]

/-- Claim C4 (amended): for every generation date the JS `Date` accessors
can report and every choice of the random source, `generateCouponCode`
returns a 12-character string whose first 6 characters are the calendar
date in `YYMMDD` form and whose last 6 characters are each drawn from the
fixed 31-character alphabet `CHARSET` of uppercase letters and digits
excluding `0, O, 1, I, L`.  (The claim said 32 characters; see the
counterexample.) -/
theorem C4_amended_coupon_format (d : JsDate) (draws : List Nat)
    (hy : 10 ≤ d.fullYear) (hm : d.month + 1 ≤ 12) (hd : d.date ≤ 31)
    (hlen : draws.length = 6) (hdr : ∀ i ∈ draws, i < CHARSET.length) :
    (generateCouponCode d draws).length = 12 ∧
    (generateCouponCode d draws).take 6 =
      twoDigitStr (d.fullYear % 100) ++ twoDigitStr (d.month + 1) ++ twoDigitStr d.date ∧
    ∀ c ∈ ((generateCouponCode d draws).drop 6).data, c ∈ CHARSET.data := by
  rw [couponCode_decomp d draws hy hm hd]
  have hp6 : (twoDigitStr (d.fullYear % 100) ++ twoDigitStr (d.month + 1) ++
      twoDigitStr d.date).length = 6 := ymd_length d hm hd
  have hpd : (twoDigitStr (d.fullYear % 100) ++ twoDigitStr (d.month + 1) ++
      twoDigitStr d.date).data.length = 6 := hp6
  refine ⟨?_, ?_, ?_⟩
  · rw [String.length_append, hp6, generateRandomString_length, hlen]
  · apply String.ext
    rw [String.data_take, String.data_append, ← hpd, List.take_left]
  · intro c hc
    rw [String.data_drop, String.data_append, ← hpd, List.drop_left] at hc
    exact generateRandomString_mem draws hdr c hc

/-- Claim C10: for every generation date and every choice of the random
source, the validator accepts the generator output:
`isValidCouponCode(generateCouponCode())` returns true. -/
theorem C10_generated_accepted (d : JsDate) (draws : List Nat)
    (hy : 10 ≤ d.fullYear) (hm : d.month + 1 ≤ 12) (hd : d.date ≤ 31)
    (hlen : draws.length = 6) (hdr : ∀ i ∈ draws, i < CHARSET.length) :
    isValidCouponCode (generateCouponCode d draws) = true := by
  rw [couponCode_decomp d draws hy hm hd, isValidCouponCode_iff]
  have hp6 : (twoDigitStr (d.fullYear % 100) ++ twoDigitStr (d.month + 1) ++
      twoDigitStr d.date).length = 6 := ymd_length d hm hd
  have hpd : (twoDigitStr (d.fullYear % 100) ++ twoDigitStr (d.month + 1) ++
      twoDigitStr d.date).data.length = 6 := hp6
  have htake : ((twoDigitStr (d.fullYear % 100) ++ twoDigitStr (d.month + 1) ++
      twoDigitStr d.date) ++ generateRandomString draws).take 6 =
      twoDigitStr (d.fullYear % 100) ++ twoDigitStr (d.month + 1) ++ twoDigitStr d.date := by
    apply String.ext
    rw [String.data_take, String.data_append, ← hpd, List.take_left]
  have hdrop : ((twoDigitStr (d.fullYear % 100) ++ twoDigitStr (d.month + 1) ++
      twoDigitStr d.date) ++ generateRandomString draws).drop 6 =
      generateRandomString draws := by
    apply String.ext
    rw [String.data_drop, String.data_append, ← hpd, List.drop_left]
  refine ⟨?_, ?_, ?_⟩
  · rw [String.length_append, hp6, generateRandomString_length, hlen]
  · rw [htake]
    unfold sixDigits
    rw [hp6]
    simp only [beq_self_eq_true, Bool.true_and, List.all_eq_true]
    intro c hc
    simp only [String.data_append, List.mem_append] at hc
    rcases hc with (hc | hc) | hc
    · exact twoDigitStr_isDigit _ c hc
    · exact twoDigitStr_isDigit _ c hc
    · exact twoDigitStr_isDigit _ c hc
  · rw [hdrop]
    unfold sixUpperAlnum
    rw [generateRandomString_length, hlen]
    simp only [beq_self_eq_true, Bool.true_and, List.all_eq_true]
    intro c hc
    exact charset_upperAlnum c (generateRandomString_mem draws hdr c hc)

/-- Claim C4, counterexample: the fixed alphabet `CHARSET` the suffix is
drawn from has 31 characters, not 32 as the claim states (26 letters plus
10 digits minus the 5 excluded symbols). -/
theorem C4_counterexample_charset31 : CHARSET.length = 31 ∧ CHARSET.length ≠ 32 := by
  decide

/-- Witness for C4: the amended format theorem evaluated on January 15,
2024 with draws 0..5, producing the code 240115ABCDEF. -/
theorem C4_amended_witness :
    (generateCouponCode ⟨2024, 0, 15⟩ [0, 1, 2, 3, 4, 5]).length = 12 ∧
    (generateCouponCode ⟨2024, 0, 15⟩ [0, 1, 2, 3, 4, 5]).take 6 =
      twoDigitStr (2024 % 100) ++ twoDigitStr (0 + 1) ++ twoDigitStr 15 ∧
    ∀ c ∈ ((generateCouponCode ⟨2024, 0, 15⟩ [0, 1, 2, 3, 4, 5]).drop 6).data,
      c ∈ CHARSET.data :=
  C4_amended_coupon_format ⟨2024, 0, 15⟩ [0, 1, 2, 3, 4, 5]
    (by decide) (by decide) (by decide) (by decide) (by decide)

/-- Witness for C10: the generator output for January 15, 2024 with
draws 0..5 passes the validator. -/
theorem C10_witness :
    isValidCouponCode (generateCouponCode ⟨2024, 0, 15⟩ [0, 1, 2, 3, 4, 5]) = true :=
  C10_generated_accepted ⟨2024, 0, 15⟩ [0, 1, 2, 3, 4, 5]
    (by decide) (by decide) (by decide) (by decide) (by decide)

/-- Claim C5, counterexample: the string 123456ABC0IL is accepted by
`isValidCouponCode` although its suffix contains `0`, `I` and `L`, which
are outside the restricted generation alphabet, refuting the claim that
the validator checks exactly the generation shape. -/
theorem C5_counterexample :
    isValidCouponCode "123456ABC0IL" = true ∧
    ¬ ∀ c ∈ ("123456ABC0IL".drop 6).data, c ∈ CHARSET.data := by
  refine ⟨by decide, ?_⟩
  decide

/-- Claim C5 (amended): `isValidCouponCode code` returns true exactly
when `code` splits into 6 ASCII digits followed by 6 characters that are
uppercase ASCII letters or digits.  The suffix alphabet `[A-Z0-9]` is a
proper superset of the generation alphabet: the visually ambiguous
`0, O, 1, I, L` are accepted by the validator. -/
theorem C5_amended_validator_shape (code : String) :
    isValidCouponCode code = true ↔
      ∃ p s : String, code = p ++ s ∧ p.length = 6 ∧ s.length = 6 ∧
        (∀ c ∈ p.data, c.isDigit = true) ∧
        (∀ c ∈ s.data, ('A' ≤ c ∧ c ≤ 'Z') ∨ ('0' ≤ c ∧ c ≤ '9')) := by
  rw [isValidCouponCode_iff]
  constructor
  · rintro ⟨h12, hsd, hsa⟩
    unfold sixDigits at hsd
    unfold sixUpperAlnum at hsa
    simp only [Bool.and_eq_true, beq_iff_eq, List.all_eq_true] at hsd hsa
    refine ⟨code.take 6, code.drop 6, ?_, hsd.1, hsa.1, hsd.2, ?_⟩
    · apply String.ext
      rw [String.data_append, String.data_take, String.data_drop, List.take_append_drop]
    · intro c hc
      have := hsa.2 c hc
      simpa [Bool.or_eq_true, Bool.and_eq_true, decide_eq_true_eq] using this
  · rintro ⟨p, s, rfl, hp, hs, hpd, hsal⟩
    have hpd6 : p.data.length = 6 := hp
    have htake : (p ++ s).take 6 = p := by
      apply String.ext
      rw [String.data_take, String.data_append, ← hpd6, List.take_left]
    have hdrop : (p ++ s).drop 6 = s := by
      apply String.ext
      rw [String.data_drop, String.data_append, ← hpd6, List.drop_left]
    refine ⟨?_, ?_, ?_⟩
    · rw [String.length_append, hp, hs]
    · rw [htake]
      unfold sixDigits
      rw [hp]
      simp only [beq_self_eq_true, Bool.true_and, List.all_eq_true]
      exact hpd
    · rw [hdrop]
      unfold sixUpperAlnum
      rw [hs]
      simp only [beq_self_eq_true, Bool.true_and, List.all_eq_true]
      intro c hc
      have := hsal c hc
      simpa [Bool.or_eq_true, Bool.and_eq_true, decide_eq_true_eq] using this

/-- Witness for C5: the characterisation instantiated at the concrete
code 240115ABCDEF. -/
theorem C5_amended_witness :
    isValidCouponCode "240115ABCDEF" = true ↔
      ∃ p s : String, "240115ABCDEF" = p ++ s ∧ p.length = 6 ∧ s.length = 6 ∧
        (∀ c ∈ p.data, c.isDigit = true) ∧
        (∀ c ∈ s.data, ('A' ≤ c ∧ c ≤ 'Z') ∨ ('0' ≤ c ∧ c ≤ '9')) :=
  C5_amended_validator_shape "240115ABCDEF"

theorem findOne_append_some (db : List SurveyRecord) (r : SurveyRecord) (u : String)
    (h : findOne db u = none) (hr : (r.lineUserId == u) = true) :
    findOne (db ++ [r]) u = some r := by
  unfold findOne at h ⊢
  rw [List.find?_append, h]
  simp [List.find?_cons, hr]

theorem filter_eq_nil_of_findOne_none (db : List SurveyRecord) (u : String)
    (h : findOne db u = none) :
    db.filter (fun x => x.lineUserId == u) = [] := by
  unfold findOne at h
  rw [List.filter_eq_nil_iff]
  intro a ha
  have := List.find?_eq_none.mp h a ha
  simpa using this

theorem filter_length_one_of_findOne_some (db : List SurveyRecord) (u : String)
    (hnd : uidsNodup db) (r : SurveyRecord) (h : findOne db u = some r) :
    (db.filter (fun x => x.lineUserId == u)).length = 1 := by
  unfold findOne at h
  induction db with
  | nil => cases h
  | cons a db ih =>
    rcases List.nodup_cons.mp hnd with ⟨hna, hnd2⟩
    rw [List.find?_cons] at h
    cases ha : (a.lineUserId == u) with
    | true =>
      have hau : a.lineUserId = u := by simpa using ha
      have hfilter : db.filter (fun x => x.lineUserId == u) = [] := by
        rw [List.filter_eq_nil_iff]
        intro b hb
        have hbu : ¬ b.lineUserId = u := by
          intro he
          apply hna
          show a.lineUserId ∈ List.map (fun r => r.lineUserId) db
          rw [hau, ← he]
          exact List.mem_map_of_mem (fun x => x.lineUserId) hb
        simpa using hbu
      simp [List.filter_cons, ha, hfilter]
    | false =>
      rw [ha] at h
      have := ih hnd2 h
      simp [List.filter_cons, ha, this]

theorem submit_eq_found (dbRead dbIns : List SurveyRecord) (input : SurveySubmitInput)
    (c : String) (l : Bool) (t s : Nat) (e : SurveyRecord)
    (hfind : findOne dbRead input.lineUserId = some e) :
    submit dbRead dbIns input c l t s = .ok ⟨dbIns, ⟨true, e.couponCode⟩, 0⟩ := by
  unfold submit
  rw [hfind]

theorem submit_eq_dup_found (dbRead dbIns : List SurveyRecord) (input : SurveySubmitInput)
    (c : String) (l : Bool) (t s : Nat) (e : SurveyRecord)
    (hfind : findOne dbRead input.lineUserId = none)
    (hdup : hasDuplicateKey dbIns (newRecord input c t) = true)
    (hfind2 : findOne dbIns input.lineUserId = some e) :
    submit dbRead dbIns input c l t s = .ok ⟨dbIns, ⟨true, e.couponCode⟩, 0⟩ := by
  unfold submit
  rw [hfind]
  simp only [hdup, if_true, reduceIte, hfind2]

theorem submit_eq_dup_error (dbRead dbIns : List SurveyRecord) (input : SurveySubmitInput)
    (c : String) (l : Bool) (t s : Nat)
    (hfind : findOne dbRead input.lineUserId = none)
    (hdup : hasDuplicateKey dbIns (newRecord input c t) = true)
    (hfind2 : findOne dbIns input.lineUserId = none) :
    submit dbRead dbIns input c l t s = .error .INTERNAL_SERVER_ERROR := by
  unfold submit
  rw [hfind]
  simp only [hdup, if_true, reduceIte, hfind2]

theorem submit_eq_fresh_sent (dbRead dbIns : List SurveyRecord) (input : SurveySubmitInput)
    (c : String) (t s : Nat)
    (hfind : findOne dbRead input.lineUserId = none)
    (hdup : hasDuplicateKey dbIns (newRecord input c t) = false) :
    submit dbRead dbIns input c true t s =
      .ok ⟨dbIns ++ [{ newRecord input c t with couponSentAt := some s }], ⟨true, c⟩, 1⟩ := by
  unfold submit
  rw [hfind]
  simp [hdup]

theorem submit_eq_fresh_unsent (dbRead dbIns : List SurveyRecord) (input : SurveySubmitInput)
    (c : String) (t s : Nat)
    (hfind : findOne dbRead input.lineUserId = none)
    (hdup : hasDuplicateKey dbIns (newRecord input c t) = false) :
    submit dbRead dbIns input c false t s =
      .ok ⟨dbIns ++ [newRecord input c t], ⟨true, c⟩, 1⟩ := by
  unfold submit
  rw [hfind]
  simp [hdup]

/-- Claim C9: on every execution path of `submit` that returns without
throwing, the returned response has `success = true`; no returned value
of `submit` ever carries `success:false`. -/
theorem C9_ok_implies_success (dbRead dbIns : List SurveyRecord) (input : SurveySubmitInput)
    (c : String) (l : Bool) (t s : Nat) (o : SubmitOutcome)
    (h : submit dbRead dbIns input c l t s = .ok o) :
    o.response.success = true := by
  cases hfind : findOne dbRead input.lineUserId with
  | some e =>
    rw [submit_eq_found dbRead dbIns input c l t s e hfind] at h
    cases h; rfl
  | none =>
    cases hdup : hasDuplicateKey dbIns (newRecord input c t) with
    | true =>
      cases hfind2 : findOne dbIns input.lineUserId with
      | some e =>
        rw [submit_eq_dup_found dbRead dbIns input c l t s e hfind hdup hfind2] at h
        cases h; rfl
      | none =>
        rw [submit_eq_dup_error dbRead dbIns input c l t s hfind hdup hfind2] at h
        cases h
    | false =>
      cases l with
      | true =>
        rw [submit_eq_fresh_sent dbRead dbIns input c t s hfind hdup] at h
        cases h; rfl
      | false =>
        rw [submit_eq_fresh_unsent dbRead dbIns input c t s hfind hdup] at h
        cases h; rfl

/-- Witness for C9: a concrete fresh submission returns an outcome with
`success = true`. -/
theorem C9_witness :
    (({ db := [{ newRecord ⟨"U1", "18-24", "male", ["facebook"], none, "lte500", "BrandX"⟩
            "240115ABCDEF" 100 with couponSentAt := some 101 }],
        response := ⟨true, "240115ABCDEF"⟩, lineSendAttempts := 1 } : SubmitOutcome)).response.success
      = true :=
  C9_ok_implies_success [] [] ⟨"U1", "18-24", "male", ["facebook"], none, "lte500", "BrandX"⟩
    "240115ABCDEF" true 100 101 _ rfl

/-- Claim C1: for every identity and valid answer set, if a first
(sequential) `submit` returns a coupon, a second sequential `submit` with
the same identity returns the same coupon code, leaves the collection
unchanged (no insert), makes no notification attempt, and exactly one
record for the identity is stored. -/
theorem C1_submit_idempotent (db : List SurveyRecord) (input : SurveySubmitInput)
    (c1 c2 : String) (l1 l2 : Bool) (t1 s1 t2 s2 : Nat) (o1 : SubmitOutcome)
    (hvalid : validSurveySubmitInput input = true)
    (hnd : uidsNodup db)
    (h1 : submit db db input c1 l1 t1 s1 = .ok o1) :
    submit o1.db o1.db input c2 l2 t2 s2 =
      .ok ⟨o1.db, ⟨true, o1.response.couponCode⟩, 0⟩ ∧
    (o1.db.filter (fun r => r.lineUserId == input.lineUserId)).length = 1 := by
  cases hfind : findOne db input.lineUserId with
  | some e =>
    rw [submit_eq_found db db input c1 l1 t1 s1 e hfind] at h1
    cases h1
    refine ⟨submit_eq_found db db input c2 l2 t2 s2 e hfind, ?_⟩
    exact filter_length_one_of_findOne_some db input.lineUserId hnd e hfind
  | none =>
    have hfilter : db.filter (fun r => r.lineUserId == input.lineUserId) = [] :=
      filter_eq_nil_of_findOne_none db input.lineUserId hfind
    cases hdup : hasDuplicateKey db (newRecord input c1 t1) with
    | true =>
      cases hfind2 : findOne db input.lineUserId with
      | some e => rw [hfind] at hfind2; cases hfind2
      | none =>
        rw [submit_eq_dup_error db db input c1 l1 t1 s1 hfind hdup hfind2] at h1
        cases h1
    | false =>
      cases l1 with
      | true =>
        rw [submit_eq_fresh_sent db db input c1 t1 s1 hfind hdup] at h1
        cases h1
        have huid : (({ newRecord input c1 t1 with couponSentAt := some s1 } :
            SurveyRecord).lineUserId == input.lineUserId) = true := by
          simp [newRecord]
        have hfindr : findOne
            (db ++ [{ newRecord input c1 t1 with couponSentAt := some s1 }])
            input.lineUserId =
            some { newRecord input c1 t1 with couponSentAt := some s1 } :=
          findOne_append_some db _ input.lineUserId hfind huid
        refine ⟨submit_eq_found _ _ input c2 l2 t2 s2 _ hfindr, ?_⟩
        rw [List.filter_append, hfilter]
        simp [huid]
      | false =>
        rw [submit_eq_fresh_unsent db db input c1 t1 s1 hfind hdup] at h1
        cases h1
        have huid : ((newRecord input c1 t1).lineUserId == input.lineUserId) = true := by
          simp [newRecord]
        have hfindr : findOne (db ++ [newRecord input c1 t1]) input.lineUserId =
            some (newRecord input c1 t1) :=
          findOne_append_some db _ input.lineUserId hfind huid
        refine ⟨submit_eq_found _ _ input c2 l2 t2 s2 _ hfindr, ?_⟩
        rw [List.filter_append, hfilter]
        simp [huid]

/-- Witness for C1: after a concrete first submission for U1, the
second call returns the same coupon 240115ABCDEF, writes nothing and
sends nothing, and exactly one record for U1 exists. -/
theorem C1_witness :
    (submit [newRecord ⟨"U1", "18-24", "male", ["facebook"], none, "lte500", "BrandX"⟩
          "240115ABCDEF" 100]
        [newRecord ⟨"U1", "18-24", "male", ["facebook"], none, "lte500", "BrandX"⟩
          "240115ABCDEF" 100]
        ⟨"U1", "18-24", "male", ["facebook"], none, "lte500", "BrandX"⟩
        "999999ZZZZZZ" true 200 201 =
      .ok ⟨[newRecord ⟨"U1", "18-24", "male", ["facebook"], none, "lte500", "BrandX"⟩
          "240115ABCDEF" 100], ⟨true, "240115ABCDEF"⟩, 0⟩) ∧
    (([newRecord ⟨"U1", "18-24", "male", ["facebook"], none, "lte500", "BrandX"⟩
        "240115ABCDEF" 100].filter (fun r => r.lineUserId == "U1")).length = 1) :=
  C1_submit_idempotent [] ⟨"U1", "18-24", "male", ["facebook"], none, "lte500", "BrandX"⟩
    "240115ABCDEF" "999999ZZZZZZ" false true 100 101 200 201
    ⟨[newRecord ⟨"U1", "18-24", "male", ["facebook"], none, "lte500", "BrandX"⟩
      "240115ABCDEF" 100], ⟨true, "240115ABCDEF"⟩, 1⟩
    (by decide) List.nodup_nil rfl

/-- Claim C2: if the initial read saw no record but a concurrent call
created one for the same identity before the insert, the insert fails
with a duplicate-key error and `submit` re-reads and returns the race
winner's coupon code: the loser reports success with the winner's coupon,
inserts nothing and sends no notification. -/
theorem C2_race_loser_converges (dbRead dbIns : List SurveyRecord) (input : SurveySubmitInput)
    (c : String) (l : Bool) (t s : Nat) (w : SurveyRecord)
    (hmiss : findOne dbRead input.lineUserId = none)
    (hwin : findOne dbIns input.lineUserId = some w) :
    submit dbRead dbIns input c l t s = .ok ⟨dbIns, ⟨true, w.couponCode⟩, 0⟩ := by
  have hwin2 : List.find? (fun r => r.lineUserId == input.lineUserId) dbIns = some w := hwin
  have hw_mem : w ∈ dbIns := List.mem_of_find?_eq_some hwin2
  have hw_uid : w.lineUserId = input.lineUserId := by
    have h2 := List.find?_some hwin2
    simpa using h2
  have hdup : hasDuplicateKey dbIns (newRecord input c t) = true := by
    unfold hasDuplicateKey
    rw [List.any_eq_true]
    refine ⟨w, hw_mem, ?_⟩
    rw [Bool.or_eq_true]
    left
    simp [newRecord, hw_uid]
  exact submit_eq_dup_found dbRead dbIns input c l t s w hmiss hdup hwin

/-- Witness for C2: a concrete race where the winner's record for U1
appears between read and insert; the loser returns the winner's coupon
240115ABCDEF. -/
theorem C2_witness :
    submit []
      [⟨"U1", "25-34", "female", ["retail"], none, "gte2500", "BrandY", "240115ABCDEF", none, 90⟩]
      ⟨"U1", "18-24", "male", ["facebook"], none, "lte500", "BrandX"⟩
      "240115GGGGGG" true 100 101 =
      .ok ⟨[⟨"U1", "25-34", "female", ["retail"], none, "gte2500", "BrandY",
        "240115ABCDEF", none, 90⟩], ⟨true, "240115ABCDEF"⟩, 0⟩ :=
  C2_race_loser_converges []
    [⟨"U1", "25-34", "female", ["retail"], none, "gte2500", "BrandY", "240115ABCDEF", none, 90⟩]
    ⟨"U1", "18-24", "male", ["facebook"], none, "lte500", "BrandX"⟩
    "240115GGGGGG" true 100 101
    ⟨"U1", "25-34", "female", ["retail"], none, "gte2500", "BrandY", "240115ABCDEF", none, 90⟩
    rfl rfl

/-- Claim C3, counterexample: a coupon-code collision with another
identity's record (no record for the caller exists) makes `submit` throw
`INTERNAL_SERVER_ERROR` immediately — there is no regeneration and no
retry, and the collision is handled by the same catch branch as a
duplicate identity, refuting the claimed bounded retry loop. -/
theorem C3_counterexample :
    submit
      [⟨"U2", "25-34", "female", ["retail"], none, "gte2500", "BrandY", "240101ABCDEF", none, 50⟩]
      [⟨"U2", "25-34", "female", ["retail"], none, "gte2500", "BrandY", "240101ABCDEF", none, 50⟩]
      ⟨"U1", "18-24", "male", ["facebook"], none, "lte500", "BrandX"⟩
      "240101ABCDEF" true 100 101 = .error .INTERNAL_SERVER_ERROR := rfl

/-- Claim C3 (amended): if the insert fails with a duplicate-key error
while no record exists for the caller's identity (a coupon-code
collision), `submit` throws `INTERNAL_SERVER_ERROR` at once, without
regenerating or retrying; the two uniqueness violations share one catch
branch and are told apart only by whether the re-read by identity finds a
record. -/
theorem C3_amended_collision_is_fatal (dbRead dbIns : List SurveyRecord)
    (input : SurveySubmitInput) (c : String) (l : Bool) (t s : Nat)
    (hmiss : findOne dbRead input.lineUserId = none)
    (hmiss2 : findOne dbIns input.lineUserId = none)
    (hcol : ∃ e ∈ dbIns, e.couponCode = c) :
    submit dbRead dbIns input c l t s = .error .INTERNAL_SERVER_ERROR := by
  rcases hcol with ⟨e, he_mem, he_code⟩
  have hdup : hasDuplicateKey dbIns (newRecord input c t) = true := by
    unfold hasDuplicateKey
    rw [List.any_eq_true]
    refine ⟨e, he_mem, ?_⟩
    rw [Bool.or_eq_true]
    right
    simp [newRecord, he_code]
  exact submit_eq_dup_error dbRead dbIns input c l t s hmiss hdup hmiss2

/-- Witness for C3: the amended theorem applied to the concrete
collision of the counterexample. -/
theorem C3_amended_witness :
    submit
      [⟨"U2", "25-34", "female", ["retail"], none, "gte2500", "BrandY", "240101ABCDEF", none, 50⟩]
      [⟨"U2", "25-34", "female", ["retail"], none, "gte2500", "BrandY", "240101ABCDEF", none, 50⟩]
      ⟨"U1", "18-24", "male", ["facebook"], none, "lte500", "BrandX"⟩
      "240101ABCDEF" false 100 101 = .error .INTERNAL_SERVER_ERROR :=
  C3_amended_collision_is_fatal
    [⟨"U2", "25-34", "female", ["retail"], none, "gte2500", "BrandY", "240101ABCDEF", none, 50⟩]
    [⟨"U2", "25-34", "female", ["retail"], none, "gte2500", "BrandY", "240101ABCDEF", none, 50⟩]
    ⟨"U1", "18-24", "male", ["facebook"], none, "lte500", "BrandX"⟩
    "240101ABCDEF" false 100 101 rfl rfl
    ⟨⟨"U2", "25-34", "female", ["retail"], none, "gte2500", "BrandY", "240101ABCDEF", none, 50⟩,
      by simp, rfl⟩

/-- Claim C6: on a first-time submission whose record is created, a
failed notification still yields a success response with the created
coupon, the record stays in the collection with `couponSentAt` unset;
the timestamp is stamped only in the run where delivery succeeds. -/
theorem C6_notification_failure_nonfatal (dbRead dbIns : List SurveyRecord)
    (input : SurveySubmitInput) (c : String) (t s : Nat)
    (hmiss : findOne dbRead input.lineUserId = none)
    (hdup : hasDuplicateKey dbIns (newRecord input c t) = false) :
    submit dbRead dbIns input c false t s =
      .ok ⟨dbIns ++ [newRecord input c t], ⟨true, c⟩, 1⟩ ∧
    (newRecord input c t).couponSentAt = none ∧
    submit dbRead dbIns input c true t s =
      .ok ⟨dbIns ++ [{ newRecord input c t with couponSentAt := some s }], ⟨true, c⟩, 1⟩ :=
  ⟨submit_eq_fresh_unsent dbRead dbIns input c t s hmiss hdup, rfl,
   submit_eq_fresh_sent dbRead dbIns input c t s hmiss hdup⟩

/-- Witness for C6: a concrete first submission for U1 with failed and
with successful delivery. -/
theorem C6_witness :
    submit [] [] ⟨"U1", "18-24", "male", ["facebook"], none, "lte500", "BrandX"⟩
      "240115ABCDEF" false 100 101 =
      .ok ⟨[] ++ [newRecord ⟨"U1", "18-24", "male", ["facebook"], none, "lte500", "BrandX"⟩
        "240115ABCDEF" 100], ⟨true, "240115ABCDEF"⟩, 1⟩ ∧
    (newRecord ⟨"U1", "18-24", "male", ["facebook"], none, "lte500", "BrandX"⟩
      "240115ABCDEF" 100).couponSentAt = none ∧
    submit [] [] ⟨"U1", "18-24", "male", ["facebook"], none, "lte500", "BrandX"⟩
      "240115ABCDEF" true 100 101 =
      .ok ⟨[] ++ [{ newRecord ⟨"U1", "18-24", "male", ["facebook"], none, "lte500", "BrandX"⟩
        "240115ABCDEF" 100 with couponSentAt := some 101 }], ⟨true, "240115ABCDEF"⟩, 1⟩ :=
  C6_notification_failure_nonfatal [] []
    ⟨"U1", "18-24", "male", ["facebook"], none, "lte500", "BrandX"⟩
    "240115ABCDEF" 100 101 rfl rfl

/-- Claim C7: `getStatus` is read-only (it is a pure function of the
collection and returns no collection); for an identity with no record it
reports `alreadySubmitted:false` with no coupon, and after any successful
sequential `submit` it reports `alreadySubmitted:true` with the coupon
code that `submit` returned. -/
theorem C7_getStatus_reflects_submissions (db : List SurveyRecord) (u : String)
    (input : SurveySubmitInput) (c : String) (l : Bool) (t s : Nat) (o : SubmitOutcome) :
    (findOne db u = none → getStatus db u = ⟨false, none⟩) ∧
    (submit db db input c l t s = .ok o →
      getStatus o.db input.lineUserId = ⟨true, some o.response.couponCode⟩) := by
  constructor
  · intro h
    unfold getStatus
    rw [h]
  · intro h
    cases hfind : findOne db input.lineUserId with
    | some e =>
      rw [submit_eq_found db db input c l t s e hfind] at h
      cases h
      unfold getStatus
      rw [hfind]
    | none =>
      cases hdup : hasDuplicateKey db (newRecord input c t) with
      | true =>
        cases hfind2 : findOne db input.lineUserId with
        | some e => rw [hfind] at hfind2; cases hfind2
        | none =>
          rw [submit_eq_dup_error db db input c l t s hfind hdup hfind2] at h
          cases h
      | false =>
        cases l with
        | true =>
          rw [submit_eq_fresh_sent db db input c t s hfind hdup] at h
          cases h
          unfold getStatus
          rw [findOne_append_some db _ input.lineUserId hfind (by simp [newRecord])]
          rfl
        | false =>
          rw [submit_eq_fresh_unsent db db input c t s hfind hdup] at h
          cases h
          unfold getStatus
          rw [findOne_append_some db _ input.lineUserId hfind (by simp [newRecord])]
          rfl

/-- Witness for C7: status of U1 on the empty collection, and after a
concrete successful submission. -/
theorem C7_witness :
    getStatus [] "U1" = ⟨false, none⟩ ∧
    getStatus [{ newRecord ⟨"U1", "18-24", "male", ["facebook"], none, "lte500", "BrandX"⟩
        "240115ABCDEF" 100 with couponSentAt := some 101 }] "U1" =
      ⟨true, some "240115ABCDEF"⟩ :=
  ⟨(C7_getStatus_reflects_submissions [] "U1"
      ⟨"U1", "18-24", "male", ["facebook"], none, "lte500", "BrandX"⟩
      "240115ABCDEF" true 100 101
      ⟨[{ newRecord ⟨"U1", "18-24", "male", ["facebook"], none, "lte500", "BrandX"⟩
        "240115ABCDEF" 100 with couponSentAt := some 101 }], ⟨true, "240115ABCDEF"⟩, 1⟩).1 rfl,
   (C7_getStatus_reflects_submissions [] "U1"
      ⟨"U1", "18-24", "male", ["facebook"], none, "lte500", "BrandX"⟩
      "240115ABCDEF" true 100 101
      ⟨[{ newRecord ⟨"U1", "18-24", "male", ["facebook"], none, "lte500", "BrandX"⟩
        "240115ABCDEF" 100 with couponSentAt := some 101 }], ⟨true, "240115ABCDEF"⟩, 1⟩).2 rfl⟩

/-- Claim C8: any terminating `submit` leaves the collection it
inserted into as a prefix of the result — every pre-existing record
survives unchanged in every field and nothing is deleted — and at most
one new record, carrying the caller's identity, is appended.  `getStatus`
is a pure read.  In particular a resubmission leaves stored answers and
coupon codes untouched. -/
theorem C8_existing_records_preserved (dbRead dbIns : List SurveyRecord)
    (input : SurveySubmitInput) (c : String) (l : Bool) (t s : Nat) (o : SubmitOutcome)
    (h : submit dbRead dbIns input c l t s = .ok o) :
    dbIns <+: o.db ∧
    (o.db = dbIns ∨
      ∃ r : SurveyRecord, r.lineUserId = input.lineUserId ∧ o.db = dbIns ++ [r]) := by
  cases hfind : findOne dbRead input.lineUserId with
  | some e =>
    rw [submit_eq_found dbRead dbIns input c l t s e hfind] at h
    cases h
    exact ⟨List.prefix_refl dbIns, Or.inl rfl⟩
  | none =>
    cases hdup : hasDuplicateKey dbIns (newRecord input c t) with
    | true =>
      cases hfind2 : findOne dbIns input.lineUserId with
      | some e =>
        rw [submit_eq_dup_found dbRead dbIns input c l t s e hfind hdup hfind2] at h
        cases h
        exact ⟨List.prefix_refl dbIns, Or.inl rfl⟩
      | none =>
        rw [submit_eq_dup_error dbRead dbIns input c l t s hfind hdup hfind2] at h
        cases h
    | false =>
      cases l with
      | true =>
        rw [submit_eq_fresh_sent dbRead dbIns input c t s hfind hdup] at h
        cases h
        exact ⟨List.prefix_append dbIns _,
          Or.inr ⟨{ newRecord input c t with couponSentAt := some s }, rfl, rfl⟩⟩
      | false =>
        rw [submit_eq_fresh_unsent dbRead dbIns input c t s hfind hdup] at h
        cases h
        exact ⟨List.prefix_append dbIns _, Or.inr ⟨newRecord input c t, rfl, rfl⟩⟩

/-- Witness for C8: a concrete fresh submission next to an existing
record for U2 preserves that record and appends one record for U1. -/
theorem C8_witness :
    [⟨"U2", "25-34", "female", ["retail"], none, "gte2500", "BrandY",
        "240101ABCDEF", none, 50⟩] <+:
      SubmitOutcome.db ⟨[⟨"U2", "25-34", "female", ["retail"], none, "gte2500", "BrandY",
          "240101ABCDEF", none, 50⟩,
        newRecord ⟨"U1", "18-24", "male", ["facebook"], none, "lte500", "BrandX"⟩
          "240115ABCDEF" 100], ⟨true, "240115ABCDEF"⟩, 1⟩ ∧
    (SubmitOutcome.db ⟨[⟨"U2", "25-34", "female", ["retail"], none, "gte2500", "BrandY",
          "240101ABCDEF", none, 50⟩,
        newRecord ⟨"U1", "18-24", "male", ["facebook"], none, "lte500", "BrandX"⟩
          "240115ABCDEF" 100], ⟨true, "240115ABCDEF"⟩, 1⟩ =
      [⟨"U2", "25-34", "female", ["retail"], none, "gte2500", "BrandY",
        "240101ABCDEF", none, 50⟩] ∨
      ∃ r : SurveyRecord, r.lineUserId = "U1" ∧
        SubmitOutcome.db ⟨[⟨"U2", "25-34", "female", ["retail"], none, "gte2500", "BrandY",
            "240101ABCDEF", none, 50⟩,
          newRecord ⟨"U1", "18-24", "male", ["facebook"], none, "lte500", "BrandX"⟩
            "240115ABCDEF" 100], ⟨true, "240115ABCDEF"⟩, 1⟩ =
          [⟨"U2", "25-34", "female", ["retail"], none, "gte2500", "BrandY",
            "240101ABCDEF", none, 50⟩] ++ [r]) :=
  C8_existing_records_preserved
    [⟨"U2", "25-34", "female", ["retail"], none, "gte2500", "BrandY", "240101ABCDEF", none, 50⟩]
    [⟨"U2", "25-34", "female", ["retail"], none, "gte2500", "BrandY", "240101ABCDEF", none, 50⟩]
    ⟨"U1", "18-24", "male", ["facebook"], none, "lte500", "BrandX"⟩
    "240115ABCDEF" false 100 101
    ⟨[⟨"U2", "25-34", "female", ["retail"], none, "gte2500", "BrandY", "240101ABCDEF", none, 50⟩,
      newRecord ⟨"U1", "18-24", "male", ["facebook"], none, "lte500", "BrandX"⟩
        "240115ABCDEF" 100], ⟨true, "240115ABCDEF"⟩, 1⟩ rfl
